import Mathlib

/-!
Shallow embedding of the `solana-agent-wallet` repository's core:
the spending-policy engine and transfer lifecycle of `AgentWallet`
(src/AgentWallet.ts) and the fleet registry `WalletManager`
(src/WalletManager.ts).

Modelling conventions:
- Lamport amounts and balances are `Int` (TypeScript numbers used as
  integral lamport counts); SOL-denominated quantities that the code
  obtains by division are `ℚ`.
- Wall-clock time is milliseconds since the epoch as `Nat`; `new Date()`
  becomes an explicit `now` parameter.
- The external ledger/signing collaborators of `transferSOL` are a
  `LedgerView` parameter: the balance returned by each `getBalance`
  call and the outcome of `sendAndConfirmTransaction`.
- Human-readable reason strings are represented by the `Reason`
  inductive, one constructor per distinct message produced by the code,
  carrying the numeric/string data interpolated into the message.
-/

set_option autoImplicit false

namespace SolanaAgentWallet

/-- Status field of a `TransactionRecord` (AgentWallet.ts line 51). -/
inductive TxStatus where
  | success
  | failed
  | blocked
deriving DecidableEq, Repr

/-- Reasons attached to validation results and transaction records, one
constructor per distinct message the code produces, carrying the values
interpolated into the message text. -/
inductive Reason where
  | deactivated
  | invalidAmount
  | insufficientBalance (haveLamports needLamports : Int)
  | perTransactionLimit (maxLamports : Int)
  | dailyLimit (limitLamports spentLamports : Int)
  | whitelist (target : String)
  | approvalRequired
  | execError (message : String)
deriving DecidableEq, Repr

/-- SpendingPolicy (AgentWallet.ts lines 29-35). The optional whitelist
`allowedTargets?: string[]` is an `Option (List String)`. -/
structure SpendingPolicy where
  maxTransactionLamports : Int
  dailyLimitLamports : Int
  allowedTargets : Option (List String)
  requiresApproval : Bool
  approvalThresholdLamports : Int
deriving DecidableEq, Repr

/-- WalletMetadata (AgentWallet.ts lines 37-43); `createdAt` is epoch ms. -/
structure WalletMetadata where
  agentId : String
  agentName : String
  role : String
  createdAt : Nat
  policy : SpendingPolicy
deriving DecidableEq, Repr

/-- TransactionRecord (AgentWallet.ts lines 45-53). `from` and `to` are
Lean keywords, so the fields are `fromAddr` and `toAddr`. -/
structure TransactionRecord where
  signature : String
  fromAddr : String
  toAddr : String
  lamports : Int
  timestamp : Nat
  status : TxStatus
  reason : Option Reason
deriving DecidableEq, Repr

/-- AgentWalletState (AgentWallet.ts lines 55-63). -/
structure AgentWalletState where
  metadata : WalletMetadata
  publicKey : String
  balanceLamports : Int
  dailySpentLamports : Int
  dailySpentResetAt : Nat
  transactionHistory : List TransactionRecord
  isActive : Bool
deriving DecidableEq, Repr

/-- Milliseconds per day, for the UTC-midnight computation. -/
def msPerDay : Nat := 86400000

/-- nextMidnight (AgentWallet.ts lines 163-167): `d.setUTCHours(24,0,0,0)`
rounds the current time up to the next UTC midnight. -/
def nextMidnight (now : Nat) : Nat :=
  (now / msPerDay + 1) * msPerDay

/-- resetDailyLimitIfNeeded (AgentWallet.ts lines 156-161): if the current
time has reached the stored reset boundary, zero the daily counter and
store the next boundary. -/
def resetDailyLimitIfNeeded (now : Nat) (s : AgentWalletState) : AgentWalletState :=
  if s.dailySpentResetAt ≤ now then
    { s with dailySpentLamports := 0, dailySpentResetAt := nextMidnight now }
  else
    s

/-- Result type of validateTransfer (AgentWallet.ts line 176):
`{ allowed: boolean; reason?: string; requiresApproval?: boolean }`.
An absent optional field is its `false`/`none` default. -/
structure ValidationResult where
  allowed : Bool
  reason : Option Reason
  requiresApproval : Bool
deriving DecidableEq, Repr

/-- Whitelist condition of validateTransfer (AgentWallet.ts line 209):
`policy.allowedTargets && !policy.allowedTargets.includes(targetPubkey)`.
A configured-but-empty whitelist is truthy in JavaScript, hence blocks
every target. -/
def whitelistViolated (policy : SpendingPolicy) (targetPubkey : String) : Bool :=
  match policy.allowedTargets with
  | some targets => !(targets.contains targetPubkey)
  | none => false

/-- Check chain of validateTransfer (AgentWallet.ts lines 178-223), run on
the state after the lazy daily reset. -/
def validateChecks (s : AgentWalletState) (lamports : Int)
    (targetPubkey : String) : ValidationResult :=
  let policy := s.metadata.policy
  if s.isActive = false then
    ⟨false, some .deactivated, false⟩
  else if lamports ≤ 0 then
    ⟨false, some .invalidAmount, false⟩
  else if s.balanceLamports < lamports then
    ⟨false, some (.insufficientBalance s.balanceLamports lamports), false⟩
  else if policy.maxTransactionLamports < lamports then
    ⟨false, some (.perTransactionLimit policy.maxTransactionLamports), false⟩
  else if policy.dailyLimitLamports < s.dailySpentLamports + lamports then
    ⟨false, some (.dailyLimit policy.dailyLimitLamports s.dailySpentLamports), false⟩
  else if whitelistViolated policy targetPubkey then
    ⟨false, some (.whitelist targetPubkey), false⟩
  else if policy.approvalThresholdLamports ≤ lamports ∧ policy.requiresApproval = true then
    ⟨true, none, true⟩
  else
    ⟨true, none, false⟩

/-- validateTransfer (AgentWallet.ts lines 173-224). The method first runs
`this.resetDailyLimitIfNeeded()` (mutating the state), then the check
chain; the returned pair is (result, state after the possible reset). -/
def validateTransfer (now : Nat) (s : AgentWalletState) (lamports : Int)
    (targetPubkey : String) : ValidationResult × AgentWalletState :=
  let s2 := resetDailyLimitIfNeeded now s
  (validateChecks s2 lamports targetPubkey, s2)

/-- Outcome of the broadcast step (`sendAndConfirmTransaction`, or any
error thrown earlier inside the `try` block of transferSOL): either a
confirmed signature or an error whose `message` is captured. -/
inductive BroadcastOutcome where
  | ok (signature : String)
  | err (message : String)
deriving DecidableEq, Repr

/-- View of the external ledger during one transferSOL invocation:
the lamport balance returned by `getBalance` at the initial
`refreshBalance()`, the broadcast outcome, and the balance returned by
the post-success `refreshBalance()`. -/
structure LedgerView where
  balanceBefore : Int
  broadcast : BroadcastOutcome
  balanceAfter : Int
deriving DecidableEq, Repr

/-- Push of one record onto the audit trail
(`this.state.transactionHistory.push(record)`). -/
def appendRecord (s : AgentWalletState) (r : TransactionRecord) : AgentWalletState :=
  { s with transactionHistory := s.transactionHistory ++ [r] }

/-- refreshBalance (AgentWallet.ts lines 146-152): overwrite the cached
balance with the value the ledger reports. -/
def refreshBalance (ledgerBalance : Int) (s : AgentWalletState) : AgentWalletState :=
  { s with balanceLamports := ledgerBalance }

/-- transferSOL (AgentWallet.ts lines 232-329): refresh the balance,
validate (unless `skipPolicyCheck`), then either record a blocked
attempt, record a pending-approval attempt, or attempt the broadcast and
record success (updating the daily spend tracker and re-refreshing the
balance) or failure. Returns the appended record and the new state. -/
def transferSOL (now : Nat) (ledger : LedgerView) (s : AgentWalletState)
    (destinationPubkey : String) (lamports : Int) (skipPolicyCheck : Bool) :
    TransactionRecord × AgentWalletState :=
  let s1 := refreshBalance ledger.balanceBefore s
  let vs :=
    if skipPolicyCheck then (⟨true, none, false⟩, s1)
    else validateTransfer now s1 lamports destinationPubkey
  let validation := vs.1
  let s2 := vs.2
  if validation.allowed = false then
    let record : TransactionRecord :=
      ⟨"BLOCKED", s2.publicKey, destinationPubkey, lamports, now, .blocked,
        validation.reason⟩
    (record, appendRecord s2 record)
  else if validation.requiresApproval = true then
    let record : TransactionRecord :=
      ⟨"PENDING_APPROVAL", s2.publicKey, destinationPubkey, lamports, now, .blocked,
        some .approvalRequired⟩
    (record, appendRecord s2 record)
  else
    match ledger.broadcast with
    | .ok signature =>
      let s3 := { s2 with dailySpentLamports := s2.dailySpentLamports + lamports }
      let record : TransactionRecord :=
        ⟨signature, s3.publicKey, destinationPubkey, lamports, now, .success, none⟩
      (record, refreshBalance ledger.balanceAfter (appendRecord s3 record))
    | .err message =>
      let record : TransactionRecord :=
        ⟨"FAILED", s2.publicKey, destinationPubkey, lamports, now, .failed,
          some (.execError message)⟩
      (record, appendRecord s2 record)

/-- Constructor of AgentWallet (AgentWallet.ts lines 84-101): fresh state
with zero balance, zero daily spend, next-midnight reset boundary, empty
history, active. -/
def mkAgentWallet (now : Nat) (metadata : WalletMetadata)
    (publicKey : String) : AgentWalletState :=
  ⟨metadata, publicKey, 0, 0, nextMidnight now, [], true⟩

/-- WalletManager's registry (WalletManager.ts line 28): an
insertion-ordered map from agentId to wallet, modelled as an association
list; `Map.set` of a fresh key appends at the end. -/
structure WalletManagerState where
  wallets : List (String × AgentWalletState)
deriving DecidableEq, Repr

/-- createAgentWallet (WalletManager.ts lines 39-60): error on a
duplicate agentId (thrown before any registry mutation); otherwise build
metadata, construct the wallet (with an externally generated
`freshPublicKey`), register it, return it. -/
def createAgentWallet (now : Nat) (freshPublicKey : String)
    (m : WalletManagerState) (agentId agentName role : String)
    (policy : SpendingPolicy) :
    Except String (AgentWalletState × WalletManagerState) :=
  if (m.wallets.lookup agentId).isSome then
    .error ("Agent wallet with ID '" ++ agentId ++ "' already exists")
  else
    let metadata : WalletMetadata := ⟨agentId, agentName, role, now, policy⟩
    let wallet := mkAgentWallet now metadata freshPublicKey
    .ok (wallet, ⟨m.wallets ++ [(agentId, wallet)]⟩)

/-- getWallet (WalletManager.ts lines 77-81): error when the agentId is
absent, otherwise the registered wallet. -/
def getWallet (m : WalletManagerState) (agentId : String) :
    Except String AgentWalletState :=
  match m.wallets.lookup agentId with
  | some wallet => .ok wallet
  | none => .error ("No wallet found for agent '" ++ agentId ++ "'")

/-- getAllWallets (WalletManager.ts lines 83-85): the registered wallets
in insertion order. -/
def getAllWallets (m : WalletManagerState) : List AgentWalletState :=
  m.wallets.map (·.2)

/-- LAMPORTS_PER_SOL, the @solana/web3.js constant. -/
def LAMPORTS_PER_SOL : ℚ := 1000000000

/-- FleetSummary (WalletManager.ts lines 19-25). -/
structure FleetSummary where
  totalAgents : Nat
  activeAgents : Nat
  totalBalanceSOL : ℚ
  totalTransactions : Nat
  successRate : ℚ
deriving DecidableEq, Repr

/-- getFleetSummary (WalletManager.ts lines 144-160). -/
def getFleetSummary (m : WalletManagerState) : FleetSummary :=
  let all := getAllWallets m
  let active := all.filter (·.isActive)
  let allTx := all.flatMap (·.transactionHistory)
  let successTx := allTx.filter (fun t => t.status == .success)
  { totalAgents := all.length
    activeAgents := active.length
    totalBalanceSOL :=
      all.foldl (fun sum w => sum + (w.balanceLamports : ℚ) / LAMPORTS_PER_SOL) 0
    totalTransactions := allTx.length
    successRate :=
      if 0 < allTx.length then (successTx.length : ℚ) / (allTx.length : ℚ) else 0 }

/-- airdropToAgent (WalletManager.ts lines 93-113): resolve the wallet
(raising for an unknown agent), then request
`min(solAmount * LAMPORTS_PER_SOL, 2 * LAMPORTS_PER_SOL)` lamports from
the devnet faucet. The returned value models the lamports passed to
`connection.requestAirdrop`. -/
def airdropToAgent (m : WalletManagerState) (agentId : String)
    (solAmount : ℚ) : Except String ℚ :=
  match getWallet m agentId with
  | .error e => .error e
  | .ok _ => .ok (min (solAmount * LAMPORTS_PER_SOL) (2 * LAMPORTS_PER_SOL))

/-- airdropToAgent with the declared default `solAmount: number = 1`. -/
def airdropToAgentDefault (m : WalletManagerState) (agentId : String) :
    Except String ℚ :=
  airdropToAgent m agentId 1

/-!
Heap model for the aliasing claim about getAuditLog: the wallet's
`transactionHistory` array is a mutable cell, and getAuditLog allocates
a fresh cell holding a copy (`[...this.state.transactionHistory]`).
-/

/-- Tiny heap of mutable `TransactionRecord[]` arrays, addressed by
index. -/
structure AuditHeap where
  cells : List (List TransactionRecord)
deriving DecidableEq, Repr

/-- Read the array stored in cell `i` (empty if out of range). -/
def readCell (h : AuditHeap) (i : Nat) : List TransactionRecord :=
  (h.cells[i]?).getD []

/-- Overwrite cell `i` in place: models mutating an array through a
reference to it (appending, removing or reordering elements all replace
its contents). -/
def writeCell (h : AuditHeap) (i : Nat) (v : List TransactionRecord) : AuditHeap :=
  ⟨h.cells.set i v⟩

/-- Allocate a fresh cell holding `v`, returning its reference. -/
def allocCell (h : AuditHeap) (v : List TransactionRecord) : AuditHeap × Nat :=
  (⟨h.cells ++ [v]⟩, h.cells.length)

/-- getAuditLog (AgentWallet.ts lines 348-350):
`return [...this.state.transactionHistory]` — allocate a fresh array
containing a copy of the history stored at `histRef`. -/
def getAuditLog (h : AuditHeap) (histRef : Nat) : AuditHeap × Nat :=
  allocCell h (readCell h histRef)

/-- Discriminator for the spec's phrase "the reason mentions the
per-transaction limit": true exactly for the `perTransactionLimit`
message. -/
def Reason.mentionsPerTransactionLimit : Reason → Bool
  | .perTransactionLimit _ => true
  | _ => false

/-!
Helper lemmas shared by the claim theorems.
-/

@[simp] theorem isActive_resetDailyLimitIfNeeded (now : Nat) (s : AgentWalletState) :
    (resetDailyLimitIfNeeded now s).isActive = s.isActive := by
  unfold resetDailyLimitIfNeeded
  split <;> rfl

@[simp] theorem balanceLamports_resetDailyLimitIfNeeded (now : Nat)
    (s : AgentWalletState) :
    (resetDailyLimitIfNeeded now s).balanceLamports = s.balanceLamports := by
  unfold resetDailyLimitIfNeeded
  split <;> rfl

@[simp] theorem metadata_resetDailyLimitIfNeeded (now : Nat) (s : AgentWalletState) :
    (resetDailyLimitIfNeeded now s).metadata = s.metadata := by
  unfold resetDailyLimitIfNeeded
  split <;> rfl

theorem resetDailyLimitIfNeeded_eq_self {now : Nat} {s : AgentWalletState}
    (h : now < s.dailySpentResetAt) : resetDailyLimitIfNeeded now s = s := by
  unfold resetDailyLimitIfNeeded
  rw [if_neg (by omega)]

@[simp] theorem transactionHistory_resetDailyLimitIfNeeded (now : Nat)
    (s : AgentWalletState) :
    (resetDailyLimitIfNeeded now s).transactionHistory = s.transactionHistory := by
  unfold resetDailyLimitIfNeeded
  split <;> rfl

@[simp] theorem transactionHistory_refreshBalance (b : Int) (s : AgentWalletState) :
    (refreshBalance b s).transactionHistory = s.transactionHistory := rfl

@[simp] theorem transactionHistory_appendRecord (s : AgentWalletState)
    (r : TransactionRecord) :
    (appendRecord s r).transactionHistory = s.transactionHistory ++ [r] := rfl

@[simp] theorem transactionHistory_validateTransfer (now : Nat)
    (s : AgentWalletState) (lamports : Int) (target : String) :
    (validateTransfer now s lamports target).2.transactionHistory
      = s.transactionHistory := by
  unfold validateTransfer
  simp

@[simp] theorem balanceLamports_refreshBalance (b : Int) (s : AgentWalletState) :
    (refreshBalance b s).balanceLamports = b := rfl

@[simp] theorem dailySpentLamports_refreshBalance (b : Int) (s : AgentWalletState) :
    (refreshBalance b s).dailySpentLamports = s.dailySpentLamports := rfl

@[simp] theorem dailySpentResetAt_refreshBalance (b : Int) (s : AgentWalletState) :
    (refreshBalance b s).dailySpentResetAt = s.dailySpentResetAt := rfl

@[simp] theorem balanceLamports_appendRecord (s : AgentWalletState)
    (r : TransactionRecord) :
    (appendRecord s r).balanceLamports = s.balanceLamports := rfl

@[simp] theorem dailySpentLamports_appendRecord (s : AgentWalletState)
    (r : TransactionRecord) :
    (appendRecord s r).dailySpentLamports = s.dailySpentLamports := rfl

/-- Claim C1: validateTransfer runs its checks in the fixed order
inactive, non-positive amount, insufficient balance, per-transaction
limit, daily limit, whitelist, then approval, short-circuiting on the
first failure so only the first violation's reason is returned (stated
for calls in which the lazy daily reset boundary has not been reached,
so the checks read the given state's own fields). -/
theorem validateTransfer_check_order
    (now : Nat) (s : AgentWalletState) (lamports : Int) (target : String)
    (hreset : now < s.dailySpentResetAt) :
    (s.isActive = false →
      (validateTransfer now s lamports target).1
        = ⟨false, some .deactivated, false⟩) ∧
    (s.isActive = true → lamports ≤ 0 →
      (validateTransfer now s lamports target).1
        = ⟨false, some .invalidAmount, false⟩) ∧
    (s.isActive = true → 0 < lamports → s.balanceLamports < lamports →
      (validateTransfer now s lamports target).1
        = ⟨false, some (.insufficientBalance s.balanceLamports lamports), false⟩) ∧
    (s.isActive = true → 0 < lamports → lamports ≤ s.balanceLamports →
      s.metadata.policy.maxTransactionLamports < lamports →
      (validateTransfer now s lamports target).1
        = ⟨false, some (.perTransactionLimit s.metadata.policy.maxTransactionLamports),
            false⟩) ∧
    (s.isActive = true → 0 < lamports → lamports ≤ s.balanceLamports →
      lamports ≤ s.metadata.policy.maxTransactionLamports →
      s.metadata.policy.dailyLimitLamports < s.dailySpentLamports + lamports →
      (validateTransfer now s lamports target).1
        = ⟨false, some (.dailyLimit s.metadata.policy.dailyLimitLamports
            s.dailySpentLamports), false⟩) ∧
    (s.isActive = true → 0 < lamports → lamports ≤ s.balanceLamports →
      lamports ≤ s.metadata.policy.maxTransactionLamports →
      s.dailySpentLamports + lamports ≤ s.metadata.policy.dailyLimitLamports →
      whitelistViolated s.metadata.policy target = true →
      (validateTransfer now s lamports target).1
        = ⟨false, some (.whitelist target), false⟩) ∧
    (s.isActive = true → 0 < lamports → lamports ≤ s.balanceLamports →
      lamports ≤ s.metadata.policy.maxTransactionLamports →
      s.dailySpentLamports + lamports ≤ s.metadata.policy.dailyLimitLamports →
      whitelistViolated s.metadata.policy target = false →
      ((s.metadata.policy.approvalThresholdLamports ≤ lamports ∧
          s.metadata.policy.requiresApproval = true) →
        (validateTransfer now s lamports target).1 = ⟨true, none, true⟩) ∧
      (¬(s.metadata.policy.approvalThresholdLamports ≤ lamports ∧
          s.metadata.policy.requiresApproval = true) →
        (validateTransfer now s lamports target).1 = ⟨true, none, false⟩)) := by
  have hval : validateTransfer now s lamports target
      = (validateChecks s lamports target, s) := by
    unfold validateTransfer
    rw [resetDailyLimitIfNeeded_eq_self hreset]
  refine ⟨?_, ?_, ?_, ?_, ?_, ?_, ?_⟩ <;>
    intro h1 <;>
    simp only [hval, validateChecks] <;>
    [skip; intro h2; intro h2 h3; intro h2 h3 h4; intro h2 h3 h4 h5;
      intro h2 h3 h4 h5 h6; intro h2 h3 h4 h5 h6]
  · rw [if_pos (by simp [h1])]
  · rw [if_neg (by simp [h1]), if_pos h2]
  · rw [if_neg (by simp [h1]), if_neg (by omega), if_pos h3]
  · rw [if_neg (by simp [h1]), if_neg (by omega), if_neg (by omega), if_pos h4]
  · rw [if_neg (by simp [h1]), if_neg (by omega), if_neg (by omega),
      if_neg (by omega), if_pos h5]
  · rw [if_neg (by simp [h1]), if_neg (by omega), if_neg (by omega),
      if_neg (by omega), if_neg (by omega), if_pos h6]
  · refine ⟨fun h7 => ?_, fun h7 => ?_⟩ <;>
      rw [if_neg (by simp [h1]), if_neg (by omega), if_neg (by omega),
        if_neg (by omega), if_neg (by omega), if_neg (by simp [h6])]
    · rw [if_pos h7]
    · rw [if_neg h7]

/-- Witness for C1: every conjunct of the check-order theorem
instantiated at a concrete state and amount. -/
theorem validateTransfer_check_order_witness :
    (0 : Nat) < (⟨⟨"a", "n", "r", 0, ⟨100, 300, none, false, 1000⟩⟩, "PK", 500, 10,
        86400000, [], true⟩ : AgentWalletState).dailySpentResetAt ∧
    (validateTransfer 0 ⟨⟨"a", "n", "r", 0, ⟨100, 300, none, false, 1000⟩⟩, "PK",
        500, 10, 86400000, [], true⟩ 600 "T").1
      = ⟨false, some (.insufficientBalance 500 600), false⟩ :=
  ⟨by decide,
    (validateTransfer_check_order 0
      ⟨⟨"a", "n", "r", 0, ⟨100, 300, none, false, 1000⟩⟩, "PK", 500, 10,
        86400000, [], true⟩ 600 "T" (by decide)).2.2.1
      (by decide) (by decide) (by decide)⟩

/-- Claim C2: every transferSOL invocation appends exactly one record to
the transaction history, whatever the outcome: the new history is the
old history with exactly the returned record appended at the end (hence
the old history is a prefix of the new one and nothing is removed or
reordered). -/
theorem transferSOL_appends_exactly_one
    (now : Nat) (ledger : LedgerView) (s : AgentWalletState)
    (destinationPubkey : String) (lamports : Int) (skipPolicyCheck : Bool) :
    (transferSOL now ledger s destinationPubkey lamports skipPolicyCheck).2.transactionHistory
      = s.transactionHistory
        ++ [(transferSOL now ledger s destinationPubkey lamports skipPolicyCheck).1] := by
  unfold transferSOL
  cases skipPolicyCheck
  · dsimp only
    by_cases hA : (validateTransfer now (refreshBalance ledger.balanceBefore s)
        lamports destinationPubkey).1.allowed = false
    · simp [hA]
    · by_cases hR : (validateTransfer now (refreshBalance ledger.balanceBefore s)
          lamports destinationPubkey).1.requiresApproval = true
      · simp [hA, hR]
      · cases hb : ledger.broadcast <;> simp [hA, hR, hb]
  · dsimp only
    cases hb : ledger.broadcast <;> simp [hb]

/-- Counterexample to claim C3 as stated: a blocked transferSOL
invocation does not leave balanceLamports unchanged — the unconditional
initial refreshBalance() overwrites it with the ledger's value. Here the
cached balance is 5, the ledger reports 7, the amount 0 is blocked as
invalid, and the final balance is 7, not 5. -/
theorem transferSOL_blocked_balance_counterexample :
    (⟨⟨"a", "n", "r", 0, ⟨100, 300, none, false, 1000⟩⟩, "PK", 5, 10,
        86400000, [], true⟩ : AgentWalletState).balanceLamports = 5 ∧
    (transferSOL 0 ⟨7, .ok "SIG", 7⟩
        ⟨⟨"a", "n", "r", 0, ⟨100, 300, none, false, 1000⟩⟩, "PK", 5, 10,
          86400000, [], true⟩ "DEST" 0 false).1.status = TxStatus.blocked ∧
    (transferSOL 0 ⟨7, .ok "SIG", 7⟩
        ⟨⟨"a", "n", "r", 0, ⟨100, 300, none, false, 1000⟩⟩, "PK", 5, 10,
          86400000, [], true⟩ "DEST" 0 false).2.balanceLamports = 7 := by
  decide

/-- Claim C3 as amended: for every transferSOL invocation issued before
the daily reset boundary, on a Success outcome dailySpentLamports grows
by exactly the transferred amount and balanceLamports is the value the
post-success ledger refresh reports; on every non-Success outcome
(Blocked, ApprovalRequired, Failed) dailySpentLamports is unchanged,
while balanceLamports holds the value fetched from the ledger by the
unconditional initial refresh (not its pre-invocation value). -/
theorem transferSOL_frame_effects
    (now : Nat) (ledger : LedgerView) (s : AgentWalletState)
    (destinationPubkey : String) (lamports : Int) (skipPolicyCheck : Bool)
    (hreset : now < s.dailySpentResetAt) :
    ((transferSOL now ledger s destinationPubkey lamports skipPolicyCheck).1.status
        = TxStatus.success →
      (transferSOL now ledger s destinationPubkey lamports skipPolicyCheck).2.dailySpentLamports
          = s.dailySpentLamports + lamports ∧
      (transferSOL now ledger s destinationPubkey lamports skipPolicyCheck).2.balanceLamports
          = ledger.balanceAfter) ∧
    ((transferSOL now ledger s destinationPubkey lamports skipPolicyCheck).1.status
        ≠ TxStatus.success →
      (transferSOL now ledger s destinationPubkey lamports skipPolicyCheck).2.dailySpentLamports
          = s.dailySpentLamports ∧
      (transferSOL now ledger s destinationPubkey lamports skipPolicyCheck).2.balanceLamports
          = ledger.balanceBefore) := by
  have hval : validateTransfer now (refreshBalance ledger.balanceBefore s)
      lamports destinationPubkey
      = (validateChecks (refreshBalance ledger.balanceBefore s) lamports
          destinationPubkey, refreshBalance ledger.balanceBefore s) := by
    unfold validateTransfer
    rw [resetDailyLimitIfNeeded_eq_self
      (show now < (refreshBalance ledger.balanceBefore s).dailySpentResetAt from hreset)]
  unfold transferSOL
  cases skipPolicyCheck
  · dsimp only
    by_cases hA : (validateChecks (refreshBalance ledger.balanceBefore s)
        lamports destinationPubkey).allowed = false
    · simp [hA, hval]
    · by_cases hR : (validateChecks (refreshBalance ledger.balanceBefore s)
          lamports destinationPubkey).requiresApproval = true
      · simp [hA, hR, hval]
      · cases hb : ledger.broadcast <;> simp [hA, hR, hb, hval]
  · dsimp only
    cases hb : ledger.broadcast <;> simp [hb]

/-- Witness for C3's amended theorem: a successful transfer of 50 from a
wallet with daily spend 10 ends with daily spend 60 and the refreshed
balance, and a blocked transfer leaves daily spend at 10 with the balance
fetched at the start. -/
theorem transferSOL_frame_effects_witness :
    (0 : Nat) < (⟨⟨"a", "n", "r", 0, ⟨100, 300, none, false, 1000⟩⟩, "PK", 500,
        10, 86400000, [], true⟩ : AgentWalletState).dailySpentResetAt ∧
    ((transferSOL 0 ⟨500, .ok "SIG", 450⟩
        ⟨⟨"a", "n", "r", 0, ⟨100, 300, none, false, 1000⟩⟩, "PK", 500, 10,
          86400000, [], true⟩ "DEST" 50 false).2.dailySpentLamports = 10 + 50 ∧
      (transferSOL 0 ⟨500, .ok "SIG", 450⟩
        ⟨⟨"a", "n", "r", 0, ⟨100, 300, none, false, 1000⟩⟩, "PK", 500, 10,
          86400000, [], true⟩ "DEST" 50 false).2.balanceLamports = 450) :=
  ⟨by decide,
    (transferSOL_frame_effects 0 ⟨500, .ok "SIG", 450⟩
      ⟨⟨"a", "n", "r", 0, ⟨100, 300, none, false, 1000⟩⟩, "PK", 500, 10,
        86400000, [], true⟩ "DEST" 50 false (by decide)).1 (by decide)⟩

/-- Counterexample to claim C4 as stated: with the per-transaction cap
at 1 lamport, an active wallet with balance 0 and a request for 5
lamports is blocked, but the reason is the insufficient-balance message
(that check runs first), not the per-transaction limit. -/
theorem validateTransfer_per_tx_counterexample :
    (⟨⟨"a", "n", "r", 0, ⟨1, 300, none, false, 1000⟩⟩, "PK", 0, 0,
        86400000, [], true⟩ : AgentWalletState).isActive = true ∧
    (⟨⟨"a", "n", "r", 0, ⟨1, 300, none, false, 1000⟩⟩, "PK", 0, 0,
        86400000, [], true⟩ : AgentWalletState).metadata.policy.maxTransactionLamports
      < 5 ∧
    (validateTransfer 0 ⟨⟨"a", "n", "r", 0, ⟨1, 300, none, false, 1000⟩⟩, "PK", 0,
        0, 86400000, [], true⟩ 5 "T").1.reason
      = some (.insufficientBalance 0 5) ∧
    Option.map Reason.mentionsPerTransactionLimit
        (validateTransfer 0 ⟨⟨"a", "n", "r", 0, ⟨1, 300, none, false, 1000⟩⟩, "PK",
          0, 0, 86400000, [], true⟩ 5 "T").1.reason
      = some false := by
  decide

/-- Claim C4 as amended: for every amount strictly above the
per-transaction cap, an active wallet's validateTransfer always returns
a not-allowed result, irrespective of balance or daily-spend state; the
reason is the per-transaction-limit message whenever the amount is
positive and within the balance (otherwise the earlier positivity or
insufficient-balance check reports its own reason first). -/
theorem validateTransfer_per_tx_limit
    (now : Nat) (s : AgentWalletState) (lamports : Int) (target : String)
    (hact : s.isActive = true)
    (hmax : s.metadata.policy.maxTransactionLamports < lamports) :
    (validateTransfer now s lamports target).1.allowed = false ∧
    (0 < lamports → lamports ≤ s.balanceLamports →
      (validateTransfer now s lamports target).1.reason
        = some (.perTransactionLimit s.metadata.policy.maxTransactionLamports)) := by
  unfold validateTransfer
  dsimp only
  unfold validateChecks
  dsimp only
  rw [show (resetDailyLimitIfNeeded now s).isActive = true by simp [hact],
    balanceLamports_resetDailyLimitIfNeeded, metadata_resetDailyLimitIfNeeded]
  constructor
  · split_ifs <;> rfl
  · intro hpos hbal
    rw [if_neg (by simp), if_neg (by omega), if_neg (by omega), if_pos hmax]

/-- Witness for C4's amended theorem: with cap 1, balance 500 and amount
5, the transfer is not allowed and the reason is the per-transaction
limit. -/
theorem validateTransfer_per_tx_limit_witness :
    (⟨⟨"a", "n", "r", 0, ⟨1, 300, none, false, 1000⟩⟩, "PK", 500, 0,
        86400000, [], true⟩ : AgentWalletState).isActive = true ∧
    (1 : Int) < 5 ∧
    ((validateTransfer 0 ⟨⟨"a", "n", "r", 0, ⟨1, 300, none, false, 1000⟩⟩, "PK",
        500, 0, 86400000, [], true⟩ 5 "T").1.allowed = false ∧
      ((0 : Int) < 5 → (5 : Int) ≤ 500 →
        (validateTransfer 0 ⟨⟨"a", "n", "r", 0, ⟨1, 300, none, false, 1000⟩⟩, "PK",
          500, 0, 86400000, [], true⟩ 5 "T").1.reason
          = some (.perTransactionLimit 1))) :=
  ⟨by decide, by decide,
    validateTransfer_per_tx_limit 0
      ⟨⟨"a", "n", "r", 0, ⟨1, 300, none, false, 1000⟩⟩, "PK", 500, 0,
        86400000, [], true⟩ 5 "T" (by decide) (by decide)⟩

/-- Counterexample to claim C5 as stated: the claim allows S = L, but
then the probe amount L − S is 0 and validateTransfer blocks it as an
invalid (non-positive) amount instead of allowing it. Here L = S = 10
with ample balance, cap 50, no whitelist and approval not triggered. -/
theorem validateTransfer_daily_boundary_counterexample :
    (⟨⟨"a", "n", "r", 0, ⟨50, 10, none, false, 1000⟩⟩, "PK", 100, 10,
        86400000, [], true⟩ : AgentWalletState).dailySpentLamports
      ≤ (⟨⟨"a", "n", "r", 0, ⟨50, 10, none, false, 1000⟩⟩, "PK", 100, 10,
          86400000, [], true⟩ : AgentWalletState).metadata.policy.dailyLimitLamports ∧
    (validateTransfer 0 ⟨⟨"a", "n", "r", 0, ⟨50, 10, none, false, 1000⟩⟩, "PK",
        100, 10, 86400000, [], true⟩ ((10 : Int) - 10) "T").1
      = ⟨false, some .invalidAmount, false⟩ := by
  decide

/-- Claim C5 as amended: with daily limit L, spend S already counted and
S strictly below L (the S = L edge is forced out by the counterexample),
no reset boundary crossed, balance and per-transaction cap admitting
L − S + 1, no whitelist violation and approval not triggered,
validateTransfer blocks L − S + 1 with the daily-limit reason and allows
L − S. -/
theorem validateTransfer_daily_limit_boundary
    (now : Nat) (s : AgentWalletState) (target : String)
    (hreset : now < s.dailySpentResetAt)
    (hact : s.isActive = true)
    (hSL : s.dailySpentLamports < s.metadata.policy.dailyLimitLamports)
    (hbal : s.metadata.policy.dailyLimitLamports - s.dailySpentLamports + 1
      ≤ s.balanceLamports)
    (hmax : s.metadata.policy.dailyLimitLamports - s.dailySpentLamports + 1
      ≤ s.metadata.policy.maxTransactionLamports)
    (hwl : whitelistViolated s.metadata.policy target = false)
    (happr : ¬(s.metadata.policy.approvalThresholdLamports
        ≤ s.metadata.policy.dailyLimitLamports - s.dailySpentLamports ∧
      s.metadata.policy.requiresApproval = true)) :
    (validateTransfer now s
        (s.metadata.policy.dailyLimitLamports - s.dailySpentLamports + 1) target).1
      = ⟨false, some (.dailyLimit s.metadata.policy.dailyLimitLamports
          s.dailySpentLamports), false⟩ ∧
    (validateTransfer now s
        (s.metadata.policy.dailyLimitLamports - s.dailySpentLamports) target).1
      = ⟨true, none, false⟩ := by
  have hval : ∀ lamports, (validateTransfer now s lamports target).1
      = validateChecks s lamports target := by
    intro lamports
    unfold validateTransfer
    rw [resetDailyLimitIfNeeded_eq_self hreset]
  constructor
  · rw [hval]
    unfold validateChecks
    rw [if_neg (by simp [hact]), if_neg (by omega), if_neg (by omega),
      if_neg (by omega), if_pos (by omega)]
  · rw [hval]
    unfold validateChecks
    rw [if_neg (by simp [hact]), if_neg (by omega), if_neg (by omega),
      if_neg (by omega), if_neg (by omega), if_neg (by simp [hwl]), if_neg happr]

/-- Witness for C5's amended theorem: L = 300, S = 280, balance 500,
cap 50, threshold 1000: 21 lamports is blocked by the daily limit and 20
lamports is allowed. -/
theorem validateTransfer_daily_limit_boundary_witness :
    ((0 : Nat) < 86400000 ∧ (280 : Int) < 300 ∧
      (300 : Int) - 280 + 1 ≤ 500 ∧ (300 : Int) - 280 + 1 ≤ 50) ∧
    ((validateTransfer 0 ⟨⟨"a", "n", "r", 0, ⟨50, 300, none, false, 1000⟩⟩, "PK",
        500, 280, 86400000, [], true⟩ ((300 : Int) - 280 + 1) "T").1
      = ⟨false, some (.dailyLimit 300 280), false⟩ ∧
      (validateTransfer 0 ⟨⟨"a", "n", "r", 0, ⟨50, 300, none, false, 1000⟩⟩, "PK",
        500, 280, 86400000, [], true⟩ ((300 : Int) - 280) "T").1
      = ⟨true, none, false⟩) :=
  ⟨⟨by decide, by decide, by decide, by decide⟩,
    validateTransfer_daily_limit_boundary 0
      ⟨⟨"a", "n", "r", 0, ⟨50, 300, none, false, 1000⟩⟩, "PK", 500, 280,
        86400000, [], true⟩ "T" (by decide) (by decide) (by decide) (by decide)
      (by decide) (by decide) (by decide)⟩

/-- Claim C6: whenever a whitelist is configured and the target is not a
member, validateTransfer never allows the transfer, for any amount and
any wallet state. -/
theorem validateTransfer_whitelist_blocks
    (now : Nat) (s : AgentWalletState) (lamports : Int) (target : String)
    (targets : List String)
    (hconf : s.metadata.policy.allowedTargets = some targets)
    (hmem : target ∉ targets) :
    (validateTransfer now s lamports target).1.allowed = false := by
  have hwv : whitelistViolated s.metadata.policy target = true := by
    unfold whitelistViolated
    rw [hconf]
    simpa using hmem
  unfold validateTransfer
  dsimp only
  unfold validateChecks
  dsimp only
  rw [metadata_resetDailyLimitIfNeeded]
  simp only [hwv]
  split_ifs <;> rfl

/-- Witness for C6: a wallet whose whitelist is ["X"] blocks a transfer
to "T" even when every other check would pass. -/
theorem validateTransfer_whitelist_blocks_witness :
    (⟨⟨"a", "n", "r", 0, ⟨100, 300, some ["X"], false, 1000⟩⟩, "PK", 500, 0,
        86400000, [], true⟩ : AgentWalletState).metadata.policy.allowedTargets
      = some ["X"] ∧
    "T" ∉ (["X"] : List String) ∧
    (validateTransfer 0 ⟨⟨"a", "n", "r", 0, ⟨100, 300, some ["X"], false, 1000⟩⟩,
        "PK", 500, 0, 86400000, [], true⟩ 50 "T").1.allowed = false :=
  ⟨by decide, by decide,
    validateTransfer_whitelist_blocks 0
      ⟨⟨"a", "n", "r", 0, ⟨100, 300, some ["X"], false, 1000⟩⟩, "PK", 500, 0,
        86400000, [], true⟩ 50 "T" ["X"] (by decide) (by decide)⟩

theorem lookup_append_single (l : List (String × AgentWalletState)) (a : String)
    (w : AgentWalletState) (h : l.lookup a = none) :
    (l ++ [(a, w)]).lookup a = some w := by
  induction l with
  | nil => simp [List.lookup]
  | cons hd tl ih =>
    by_cases hk : a == hd.1
    · simp [List.lookup, hk] at h
    · simp only [List.lookup, hk, List.cons_append] at h ⊢
      exact ih h

/-- Claim C7: createAgentWallet on an already-registered agentId raises a
duplicate-agent error before touching the registry, so the original
wallet is still what getWallet returns, and getWallet on an absent
agentId raises an unknown-agent error instead of returning a value. -/
theorem registry_duplicate_and_unknown
    (now now2 : Nat) (pk pk2 : String) (m : WalletManagerState)
    (agentId agentName role agentName2 role2 : String)
    (policy policy2 : SpendingPolicy)
    (w : AgentWalletState) (m2 : WalletManagerState) :
    ((m.wallets.lookup agentId).isSome = true →
      ∃ e, createAgentWallet now pk m agentId agentName role policy
        = .error e) ∧
    (m.wallets.lookup agentId = none →
      ∃ e, getWallet m agentId = .error e) ∧
    (createAgentWallet now pk m agentId agentName role policy = .ok (w, m2) →
      getWallet m2 agentId = .ok w ∧
      ∃ e, createAgentWallet now2 pk2 m2 agentId agentName2 role2 policy2
        = .error e) := by
  refine ⟨?_, ?_, ?_⟩
  · intro h
    unfold createAgentWallet
    rw [if_pos h]
    exact ⟨_, rfl⟩
  · intro h
    unfold getWallet
    rw [h]
    exact ⟨_, rfl⟩
  · intro h
    unfold createAgentWallet at h
    by_cases hl : (m.wallets.lookup agentId).isSome
    · rw [if_pos hl] at h
      cases h
    · rw [if_neg hl] at h
      have hnone : m.wallets.lookup agentId = none :=
        Option.not_isSome_iff_eq_none.mp hl
      cases h
      have hfound : (m.wallets ++
          [(agentId, mkAgentWallet now ⟨agentId, agentName, role, now, policy⟩ pk)]).lookup
            agentId
          = some (mkAgentWallet now ⟨agentId, agentName, role, now, policy⟩ pk) :=
        lookup_append_single _ _ _ hnone
      constructor
      · unfold getWallet
        rw [hfound]
      · unfold createAgentWallet
        rw [if_pos (by rw [hfound]; rfl)]
        exact ⟨_, rfl⟩

/-- Witness for C7: on the empty registry, creating agent "a" succeeds;
afterwards getWallet "a" returns that wallet and a second create of "a"
errors; getWallet "b" on the empty registry errors. -/
theorem registry_duplicate_and_unknown_witness :
    createAgentWallet 0 "PK" ⟨[]⟩ "a" "n" "r" ⟨100, 300, none, false, 1000⟩
      = .ok (mkAgentWallet 0 ⟨"a", "n", "r", 0, ⟨100, 300, none, false, 1000⟩⟩ "PK",
          ⟨[("a", mkAgentWallet 0 ⟨"a", "n", "r", 0,
            ⟨100, 300, none, false, 1000⟩⟩ "PK")]⟩) ∧
    (getWallet ⟨[("a", mkAgentWallet 0 ⟨"a", "n", "r", 0,
          ⟨100, 300, none, false, 1000⟩⟩ "PK")]⟩ "a"
        = .ok (mkAgentWallet 0 ⟨"a", "n", "r", 0,
            ⟨100, 300, none, false, 1000⟩⟩ "PK") ∧
      ∃ e, createAgentWallet 1 "PK2"
          ⟨[("a", mkAgentWallet 0 ⟨"a", "n", "r", 0,
            ⟨100, 300, none, false, 1000⟩⟩ "PK")]⟩ "a" "n2" "r2"
          ⟨1, 2, none, true, 3⟩
        = .error e) ∧
    (∃ e, getWallet ⟨[]⟩ "b" = .error e) :=
  ⟨rfl,
    (registry_duplicate_and_unknown 0 1 "PK" "PK2" ⟨[]⟩ "a" "n" "r" "n2" "r2"
      ⟨100, 300, none, false, 1000⟩ ⟨1, 2, none, true, 3⟩
      (mkAgentWallet 0 ⟨"a", "n", "r", 0, ⟨100, 300, none, false, 1000⟩⟩ "PK")
      ⟨[("a", mkAgentWallet 0 ⟨"a", "n", "r", 0,
        ⟨100, 300, none, false, 1000⟩⟩ "PK")]⟩).2.2 rfl,
    (registry_duplicate_and_unknown 0 1 "PK" "PK2" ⟨[]⟩ "b" "n" "r" "n2" "r2"
      ⟨100, 300, none, false, 1000⟩ ⟨1, 2, none, true, 3⟩
      (mkAgentWallet 0 ⟨"b", "n", "r", 0, ⟨100, 300, none, false, 1000⟩⟩ "PK")
      ⟨[]⟩).2.1 rfl⟩

/-- Claim C8: getFleetSummary's successRate is the number of success
records across all wallets divided by the total record count when that
total is positive, and exactly 0 when the fleet has no recorded
transactions (the guard avoids the 0/0 case; in this rational-valued
model there is no NaN to produce). -/
theorem getFleetSummary_successRate (m : WalletManagerState) :
    (((getAllWallets m).flatMap (·.transactionHistory)).length = 0 →
      (getFleetSummary m).successRate = 0) ∧
    (0 < ((getAllWallets m).flatMap (·.transactionHistory)).length →
      (getFleetSummary m).successRate
        = (((getAllWallets m).flatMap (·.transactionHistory)).countP
              (fun t => t.status == TxStatus.success) : ℚ)
          / (((getAllWallets m).flatMap (·.transactionHistory)).length : ℚ)) := by
  constructor
  · intro h
    unfold getFleetSummary
    dsimp only
    rw [if_neg (by omega)]
  · intro h
    unfold getFleetSummary
    dsimp only
    rw [if_pos h, List.countP_eq_length_filter]

/-- Witness for C8: a fleet with one wallet holding one success and one
blocked record has successRate 1/2, and the empty fleet has successRate
0. -/
theorem getFleetSummary_successRate_witness :
    (((getAllWallets ⟨[]⟩).flatMap (·.transactionHistory)).length = 0 ∧
      (getFleetSummary ⟨[]⟩).successRate = 0) ∧
    (0 < ((getAllWallets ⟨[("a", ⟨⟨"a", "n", "r", 0, ⟨100, 300, none, false, 1000⟩⟩,
          "PK", 0, 0, 0, [⟨"S", "A", "B", 5, 0, .success, none⟩,
            ⟨"BLOCKED", "A", "B", 5, 0, .blocked, none⟩], true⟩)]⟩).flatMap
        (·.transactionHistory)).length ∧
      (getFleetSummary ⟨[("a", ⟨⟨"a", "n", "r", 0, ⟨100, 300, none, false, 1000⟩⟩,
          "PK", 0, 0, 0, [⟨"S", "A", "B", 5, 0, .success, none⟩,
            ⟨"BLOCKED", "A", "B", 5, 0, .blocked, none⟩], true⟩)]⟩).successRate
        = (((getAllWallets ⟨[("a", ⟨⟨"a", "n", "r", 0,
              ⟨100, 300, none, false, 1000⟩⟩,
            "PK", 0, 0, 0, [⟨"S", "A", "B", 5, 0, .success, none⟩,
              ⟨"BLOCKED", "A", "B", 5, 0, .blocked, none⟩], true⟩)]⟩).flatMap
              (·.transactionHistory)).countP
            (fun t => t.status == TxStatus.success) : ℚ)
          / (((getAllWallets ⟨[("a", ⟨⟨"a", "n", "r", 0,
              ⟨100, 300, none, false, 1000⟩⟩,
            "PK", 0, 0, 0, [⟨"S", "A", "B", 5, 0, .success, none⟩,
              ⟨"BLOCKED", "A", "B", 5, 0, .blocked, none⟩], true⟩)]⟩).flatMap
              (·.transactionHistory)).length : ℚ)) :=
  ⟨⟨by decide, (getFleetSummary_successRate ⟨[]⟩).1 (by decide)⟩,
    ⟨by decide,
      (getFleetSummary_successRate ⟨[("a", ⟨⟨"a", "n", "r", 0,
          ⟨100, 300, none, false, 1000⟩⟩,
        "PK", 0, 0, 0, [⟨"S", "A", "B", 5, 0, .success, none⟩,
          ⟨"BLOCKED", "A", "B", 5, 0, .blocked, none⟩], true⟩)]⟩).2 (by decide)⟩⟩

/-- Claim C9: getAuditLog hands back a freshly allocated copy of the
transaction history: the returned reference is distinct from the
wallet's own history cell, its contents equal the internal history at
the moment of the call, and overwriting the returned cell with any
contents whatsoever (append, removal, reorder) leaves the internal
history cell untouched. -/
theorem getAuditLog_returns_copy
    (h : AuditHeap) (histRef : Nat) (v : List TransactionRecord)
    (href : histRef < h.cells.length) :
    (getAuditLog h histRef).2 ≠ histRef ∧
    readCell (getAuditLog h histRef).1 (getAuditLog h histRef).2
      = readCell h histRef ∧
    readCell (writeCell (getAuditLog h histRef).1 (getAuditLog h histRef).2 v)
        histRef
      = readCell h histRef := by
  unfold getAuditLog allocCell
  refine ⟨by dsimp only; omega, ?_, ?_⟩
  · dsimp only [readCell]
    rw [List.getElem?_append_right (Nat.le_refl _)]
    simp
  · dsimp only [readCell, writeCell]
    rw [List.getElem?_set_ne (by omega), List.getElem?_append_left href]

/-- Witness for C9: a heap with one history cell holding one record;
getAuditLog allocates cell 1, whose contents match, and overwriting cell
1 with the empty list leaves cell 0 unchanged. -/
theorem getAuditLog_returns_copy_witness :
    (0 : Nat) < (⟨[[⟨"S", "A", "B", 5, 0, .success, none⟩]]⟩ : AuditHeap).cells.length ∧
    ((getAuditLog ⟨[[⟨"S", "A", "B", 5, 0, .success, none⟩]]⟩ 0).2 ≠ 0 ∧
      readCell (getAuditLog ⟨[[⟨"S", "A", "B", 5, 0, .success, none⟩]]⟩ 0).1
          (getAuditLog ⟨[[⟨"S", "A", "B", 5, 0, .success, none⟩]]⟩ 0).2
        = readCell ⟨[[⟨"S", "A", "B", 5, 0, .success, none⟩]]⟩ 0 ∧
      readCell (writeCell (getAuditLog ⟨[[⟨"S", "A", "B", 5, 0, .success, none⟩]]⟩ 0).1
          (getAuditLog ⟨[[⟨"S", "A", "B", 5, 0, .success, none⟩]]⟩ 0).2 []) 0
        = readCell ⟨[[⟨"S", "A", "B", 5, 0, .success, none⟩]]⟩ 0) :=
  ⟨by decide,
    getAuditLog_returns_copy ⟨[[⟨"S", "A", "B", 5, 0, .success, none⟩]]⟩ 0 []
      (by decide)⟩

/-- Claim C10: for a registered agent, airdropToAgent requests exactly
min(solAmount · LAMPORTS_PER_SOL, 2 · LAMPORTS_PER_SOL) lamports from
the faucet; above 2 SOL the request is silently capped at 2 SOL (still a
success, not a rejection), and the declared default requests exactly
1 SOL. -/
theorem airdropToAgent_caps
    (m : WalletManagerState) (agentId : String) (solAmount : ℚ)
    (w : AgentWalletState) (hreg : getWallet m agentId = .ok w) :
    airdropToAgent m agentId solAmount
      = .ok (min (solAmount * LAMPORTS_PER_SOL) (2 * LAMPORTS_PER_SOL)) ∧
    (2 < solAmount →
      airdropToAgent m agentId solAmount = .ok (2 * LAMPORTS_PER_SOL)) ∧
    airdropToAgentDefault m agentId = .ok LAMPORTS_PER_SOL := by
  have hstep : airdropToAgent m agentId solAmount
      = .ok (min (solAmount * LAMPORTS_PER_SOL) (2 * LAMPORTS_PER_SOL)) := by
    unfold airdropToAgent
    rw [hreg]
  refine ⟨hstep, ?_, ?_⟩
  · intro h2
    rw [hstep, min_eq_right]
    exact mul_le_mul_of_nonneg_right (le_of_lt h2)
      (by norm_num [LAMPORTS_PER_SOL])
  · unfold airdropToAgentDefault airdropToAgent
    rw [hreg]
    have : min ((1 : ℚ) * LAMPORTS_PER_SOL) (2 * LAMPORTS_PER_SOL)
        = LAMPORTS_PER_SOL := by
      rw [one_mul]
      exact min_eq_left (by norm_num [LAMPORTS_PER_SOL])
    rw [this]

/-- Witness for C10: on a registry holding agent "a", a 5 SOL request is
capped to exactly 2 SOL worth of lamports and the default request is
exactly 1 SOL worth. -/
theorem airdropToAgent_caps_witness :
    getWallet ⟨[("a", mkAgentWallet 0 ⟨"a", "n", "r", 0,
        ⟨100, 300, none, false, 1000⟩⟩ "PK")]⟩ "a"
      = .ok (mkAgentWallet 0 ⟨"a", "n", "r", 0, ⟨100, 300, none, false, 1000⟩⟩ "PK") ∧
    ((2 : ℚ) < 5 →
      airdropToAgent ⟨[("a", mkAgentWallet 0 ⟨"a", "n", "r", 0,
          ⟨100, 300, none, false, 1000⟩⟩ "PK")]⟩ "a" 5
        = .ok (2 * LAMPORTS_PER_SOL)) ∧
    airdropToAgentDefault ⟨[("a", mkAgentWallet 0 ⟨"a", "n", "r", 0,
        ⟨100, 300, none, false, 1000⟩⟩ "PK")]⟩ "a"
      = .ok LAMPORTS_PER_SOL :=
  ⟨rfl,
    (airdropToAgent_caps ⟨[("a", mkAgentWallet 0 ⟨"a", "n", "r", 0,
        ⟨100, 300, none, false, 1000⟩⟩ "PK")]⟩ "a" 5
      (mkAgentWallet 0 ⟨"a", "n", "r", 0, ⟨100, 300, none, false, 1000⟩⟩ "PK")
      rfl).2.1,
    (airdropToAgent_caps ⟨[("a", mkAgentWallet 0 ⟨"a", "n", "r", 0,
        ⟨100, 300, none, false, 1000⟩⟩ "PK")]⟩ "a" 5
      (mkAgentWallet 0 ⟨"a", "n", "r", 0, ⟨100, 300, none, false, 1000⟩⟩ "PK")
      rfl).2.2⟩

end SolanaAgentWallet
